import Mathlib

set_option maxRecDepth 20000

/-!
Verification development for the `youtube_downloader` repository
(`src/youtube_downloader.py`).  The download-planning logic of
`extract_index_from_url` and `download_video` is embedded shallowly:
strings are handled as `List Char`, the calls into the Python standard
library (`urllib.parse.urlparse`, `urllib.parse.parse_qs`, `int`) are
modelled from their documented behaviour (restricted to single-byte
characters), and the calls into the external retrieval engine
(`yt_dlp`) are represented by passing the inspected metadata in as an
argument and recording the requested download actions in the result.
-/

/-- Split a character list on every occurrence of `sep`; models Python
`str.split(sep)` (so `"a&&b".split('&') = ["a", "", "b"]`). -/
def splitOnChar (sep : Char) : List Char → List (List Char)
  | [] => [[]]
  | c :: cs =>
    if c = sep then [] :: splitOnChar sep cs
    else
      match splitOnChar sep cs with
      | [] => [[c]]
      | g :: gs => (c :: g) :: gs

/-- Split a character list at the first occurrence of `'='`, returning the
parts before and after it; `none` when there is no `'='`.  Models Python
`str.split('=', 1)` in `urllib.parse.parse_qsl`. -/
def splitFirstEq : List Char → Option (List Char × List Char)
  | [] => none
  | c :: cs =>
    if c = '=' then some ([], cs)
    else (splitFirstEq cs).map fun p => (c :: p.1, p.2)

/-- Value of an ASCII hex digit, `none` for other characters. -/
def hexVal (c : Char) : Option Nat :=
  if '0' ≤ c ∧ c ≤ '9' then some (c.toNat - 48)
  else if 'a' ≤ c ∧ c ≤ 'f' then some (c.toNat - 87)
  else if 'A' ≤ c ∧ c ≤ 'F' then some (c.toNat - 55)
  else none

/-- Replace every `'+'` with a space; models `str.replace('+', ' ')`,
the first step of `urllib.parse.unquote_plus`. -/
def plusToSpace (s : List Char) : List Char :=
  s.map fun c => if c = '+' then ' ' else c

/-- Decode one segment that followed a `'%'`: when it starts with two hex
digits, replace them by the character with that code; otherwise restore
the `'%'` verbatim. -/
def decodeBit (item : List Char) : List Char :=
  match item with
  | a :: b :: rest =>
    match hexVal a, hexVal b with
    | some x, some y => Char.ofNat (16 * x + y) :: rest
    | _, _ => '%' :: item
  | _ => '%' :: item

/-- Models `urllib.parse.unquote_plus` restricted to single-byte escape
sequences: `'+'` becomes a space and `%hh` with two hex digits becomes the
character with that code; an invalid escape is kept verbatim.  Follows the
algorithm of the standard library: split on `'%'` and decode each piece
once. -/
def unquote_plus (s : List Char) : List Char :=
  match splitOnChar '%' (plusToSpace s) with
  | [] => []
  | bit0 :: bits => bit0 ++ (bits.map decodeBit).flatten

/-- Models `urllib.parse.parse_qsl` with its default arguments: split the
query on `'&'`, drop empty fields, drop fields without `'='` and fields
whose value is empty, and percent-decode both name and value. -/
def parse_qsl (qs : List Char) : List (List Char × List Char) :=
  (splitOnChar '&' qs).filterMap fun nv =>
    if nv = [] then none
    else
      match splitFirstEq nv with
      | none => none
      | some (n, v) => if v = [] then none else some (unquote_plus n, unquote_plus v)

/-- The list of values that `urllib.parse.parse_qs qs` associates with
`key`, in query order; `key ∈ parse_qs qs` holds exactly when this list is
non-empty, and `parse_qs(qs)[key][0]` is its head. -/
def parse_qs_get (qs : List Char) (key : List Char) : List (List Char) :=
  (parse_qsl qs).filterMap fun p => if p.1 = key then some p.2 else none

/-- The part of `l` before the first occurrence of `sep`, together with the
part after it (`none` when `sep` does not occur). -/
def splitFirstOn (sep : Char) : List Char → List Char × Option (List Char)
  | [] => ([], none)
  | c :: cs =>
    if c = sep then ([], some cs)
    else
      let p := splitFirstOn sep cs
      (c :: p.1, p.2)

/-- Decimal digit value of a character (meaningful when `c.isDigit`). -/
def digitVal (c : Char) : Nat := c.toNat - 48

/-- Decimal value of a digit string (used both by the IPv4 octet check and
to state what `int` returns on an all-digit input). -/
def natVal (v : List Char) : Nat :=
  v.foldl (fun a c => 10 * a + digitVal c) 0

/-- A C0 control character or the space character: the set `urlsplit`
strips from the left of the URL. -/
def isC0OrSpace (c : Char) : Bool := decide (c.toNat ≤ 32)

/-- The unsafe bytes (`'\t'`, `'\r'`, `'\n'`) that `urlsplit` removes
anywhere in the URL. -/
def isUnsafeUrlByte (c : Char) : Bool := c = '\t' || c = '\r' || c = '\n'

/-- A character admissible in a URL scheme: ASCII letters, digits and
`'+'`, `'-'`, `'.'`. -/
def isSchemeChar (c : Char) : Bool :=
  c.isAlpha || c.isDigit || c = '+' || c = '-' || c = '.'

/-- Remove the scheme prefix as `urlsplit` does: when the part before the
first `':'` is non-empty, starts with an ASCII letter and consists of
scheme characters, the URL continues after that colon. -/
def splitScheme (url : List Char) : List Char :=
  match splitFirstOn ':' url with
  | (before, some after) =>
    match before with
    | [] => url
    | c :: _ => if c.isAlpha && before.all isSchemeChar then after else url
  | (_, none) => url

/-- A character ending the netloc: `'/'`, `'?'` or `'#'`. -/
def isNetlocDelim (c : Char) : Bool := c = '/' || c = '?' || c = '#'

/-- An ASCII hexadecimal digit. -/
def isHexChar (c : Char) : Bool := (hexVal c).isSome

/-- One dotted-quad octet per `ipaddress`: one to three ASCII digits, no
leading zero unless the octet is exactly `"0"`, value at most 255. -/
def parseOctet (s : List Char) : Bool :=
  !s.isEmpty && s.all Char.isDigit && decide (s.length ≤ 3) &&
  (s = ['0'] || !(s.headD ' ' = '0')) && decide (natVal s ≤ 255)

/-- Validity of an IPv4 address string per `ipaddress.IPv4Address`:
exactly four octets separated by dots. -/
def isIPv4 (s : List Char) : Bool :=
  let parts := splitOnChar '.' s
  parts.length == 4 && parts.all parseOctet

/-- One IPv6 hextet: one to four hexadecimal digits. -/
def isHextet (s : List Char) : Bool :=
  !s.isEmpty && decide (s.length ≤ 4) && s.all isHexChar

/-- The colon structure of an IPv6 address, mirroring
`_ip_int_from_string`: at most nine parts; without a `"::"` exactly eight
non-empty parts; with one `"::"` (a single empty interior part) an empty
first or last part is allowed only directly at the `"::"`, and at least
one hextet must be skipped. -/
def ipv6StructureOk (parts : List (List Char)) : Bool :=
  let n := parts.length
  if n > 9 then false
  else
    let interior := (parts.drop 1).take (n - 2)
    match interior.findIdx? List.isEmpty with
    | none => n == 8 && !(parts.headD []).isEmpty && !(parts.getLastD []).isEmpty
    | some j =>
      if (interior.drop (j + 1)).any List.isEmpty then false
      else
        let k := 1 + j
        let headE := (parts.headD []).isEmpty
        let lastE := (parts.getLastD []).isEmpty
        (!headE || k == 1) && (!lastE || k == n - 2) &&
        decide ((k - (if headE then 1 else 0)) +
          (n - k - 1 - (if lastE then 1 else 0)) ≤ 7)

/-- Validity of an IPv6 address without a scope id, per
`ipaddress.IPv6Address`: at least three colon-separated parts, an optional
embedded dotted-quad suffix standing for two hextets, valid colon
structure, and every non-empty part a hextet. -/
def isIPv6NoScope (s : List Char) : Bool :=
  let parts := splitOnChar ':' s
  if parts.length < 3 then false
  else
    let last := parts.getLastD []
    if last.contains '.' then
      isIPv4 last &&
      (let ps := parts.dropLast ++ [['0'], ['0']]
       ipv6StructureOk ps && ps.all fun p => p.isEmpty || isHextet p)
    else
      ipv6StructureOk parts && parts.all fun p => p.isEmpty || isHextet p

/-- Validity of an IPv6 address with an optional scope id: a `'%'` must be
followed by a non-empty scope id containing no further `'%'`. -/
def isIPv6 (s : List Char) : Bool :=
  match splitFirstOn '%' s with
  | (addr, some scope) => !scope.isEmpty && !(scope.contains '%') && isIPv6NoScope addr
  | (addr, none) => isIPv6NoScope addr

/-- The IPvFuture shape `v` + hex digits + `'.'` + non-empty rest, the
regular expression `urlsplit` checks for bracketed hosts starting with
`'v'`. -/
def isIPvFuture (s : List Char) : Bool :=
  match s with
  | 'v' :: rest =>
    !(rest.takeWhile isHexChar).isEmpty &&
    (match rest.dropWhile isHexChar with
     | '.' :: tail => !tail.isEmpty
     | _ => false)
  | _ => false

/-- The bracketed host of a netloc: what stands after the first `'['` and
before the next `']'`. -/
def bracketedHost (netloc : List Char) : List Char :=
  match splitFirstOn '[' netloc with
  | (_, some after) => (splitFirstOn ']' after).1
  | (_, none) => []

/-- The netloc validation of `urlsplit` (CPython 3.11.6): unmatched
brackets raise "Invalid IPv6 URL"; a bracketed host starting with `'v'`
must have the IPvFuture shape; any other bracketed host must be a valid
IPv6 address (a bracketed IPv4 address raises too).  Returns `false` when
`urlsplit` raises `ValueError`. -/
def netlocOk (netloc : List Char) : Bool :=
  let hasL := netloc.contains '['
  let hasR := netloc.contains ']'
  if hasL && !hasR || hasR && !hasL then false
  else if hasL && hasR then
    match bracketedHost netloc with
    | 'v' :: rest => isIPvFuture ('v' :: rest)
    | bh => isIPv6 bh
  else true

/-- The query of the part following the netloc: the fragment (after the
first `'#'`) is removed first, and the query is everything after the first
`'?'` of what remains (empty when there is no `'?'`). -/
def splitQueryPart (u : List Char) : List Char :=
  let beforeFrag := (splitFirstOn '#' u).1
  match (splitFirstOn '?' beforeFrag).2 with
  | some q => q
  | none => []

/-- The `query` component of `urllib.parse.urlparse url`, with
`Except.error ()` modelling the `ValueError` urlsplit can raise
(CPython 3.11.6, single-byte characters): strip leading C0
controls/spaces, remove tab/CR/LF anywhere, strip a scheme prefix, and
when the remainder starts with `"//"` split off the netloc and validate
its brackets; the query is what follows the first `'?'` of the remaining
part, up to the fragment. -/
def urlparse_query (url : List Char) : Except Unit (List Char) :=
  let u1 := (url.dropWhile isC0OrSpace).filter fun c => !isUnsafeUrlByte c
  let u2 := splitScheme u1
  match u2 with
  | '/' :: '/' :: rest =>
    let netloc := rest.takeWhile fun c => !isNetlocDelim c
    let afterNetloc := rest.dropWhile fun c => !isNetlocDelim c
    if netlocOk netloc then Except.ok (splitQueryPart afterNetloc)
    else Except.error ()
  | _ => Except.ok (splitQueryPart u2)

/-- Parse the remaining characters of a Python integer literal after its
first digit: digits, with a single `'_'` allowed only between two digits.
`acc` is the value of the digits already consumed. -/
def parseDigitsRest : Nat → List Char → Option Nat
  | acc, [] => some acc
  | acc, c :: cs =>
    if c.isDigit then parseDigitsRest (10 * acc + digitVal c) cs
    else if c = '_' then
      match cs with
      | [] => none
      | d :: ds => if d.isDigit then parseDigitsRest (10 * acc + digitVal d) ds else none
    else none

/-- Parse a non-empty unsigned Python integer literal (digits, with `'_'`
allowed between digits). -/
def parseUnsigned : List Char → Option Nat
  | [] => none
  | c :: cs => if c.isDigit then parseDigitsRest (digitVal c) cs else none

/-- The whitespace characters `int()` skips around an ASCII numeric
string (the C `Py_ISSPACE` set): space, `'\t'`, `'\n'`, `'\x0b'`,
`'\x0c'`, `'\r'`. -/
def isPyIntSpace (c : Char) : Bool :=
  c = ' ' || c = '\t' || c = '\n' || c = '\x0b' || c = '\x0c' || c = '\r'

/-- Strip the leading and trailing whitespace that `int()` ignores. -/
def stripWs (s : List Char) : List Char :=
  ((s.dropWhile isPyIntSpace).reverse.dropWhile isPyIntSpace).reverse

/-- The number of decimal digit characters of a string (underscores and
the sign are not counted). -/
def countDigits (s : List Char) : Nat := (s.filter Char.isDigit).length

/-- Parse an unsigned Python integer literal, subject to the default
integer string conversion length limit: more than 4300 digit characters
raise `ValueError` regardless of the value. -/
def parseUnsignedLimited (s : List Char) : Option Nat :=
  if countDigits s > 4300 then none else parseUnsigned s

/-- Models Python `int(s)` on an ASCII string: surrounding whitespace
(`Py_ISSPACE`) is ignored, an optional single sign is allowed, then a
non-empty digit sequence with `'_'` allowed between digits, of at most
4300 digits; `none` models the `ValueError` raised on any other input. -/
def py_int (s : List Char) : Option Int :=
  match stripWs s with
  | [] => none
  | c :: rest =>
    if c = '+' then (parseUnsignedLimited rest).map Int.ofNat
    else if c = '-' then (parseUnsignedLimited rest).map fun n => -(n : Int)
    else (parseUnsignedLimited (c :: rest)).map Int.ofNat

/-- The character list of the query key `"index"`. -/
def indexKey : List Char := ['i', 'n', 'd', 'e', 'x']

/-- Embedding of `extract_index_from_url` (src/youtube_downloader.py,
lines 72-76): parse the query of the URL, and return `int(query_params["index"][0])`
when `"index"` is a key of the parsed query, `None` otherwise.
`Except.error ()` models the `ValueError` raised either by `urlparse` on
a malformed netloc or by `int` on a non-numeric value. -/
def extract_index_from_url (url : String) : Except Unit (Option Int) :=
  match urlparse_query url.data with
  | Except.error e => Except.error e
  | Except.ok qs =>
    match parse_qs_get qs indexKey with
    | [] => Except.ok none
    | v :: _ =>
      match py_int v with
      | some n => Except.ok (some n)
      | none => Except.error ()

deriving instance DecidableEq for Except

/-- One item of the metadata returned by the `extract_info` call of the
retrieval engine: a playlist entry with the fields the code reads. -/
structure Entry where
  title : String
  id : String
  url : String
deriving DecidableEq

/-- The metadata dictionary returned by `ydl.extract_info(video_url,
download=False)`: `entries = some es` models `"entries" in info` holding
the list `es` (possibly empty), `none` models the key being absent. -/
structure VideoInfo where
  entries : Option (List Entry)
deriving DecidableEq

/-- The recognized fields of the `ydl_opts` dictionary built on lines
94-101 of src/youtube_downloader.py. -/
structure YdlOpts where
  format : String
  outtmpl : String
  merge_output_format : String
  postprocessor_format : String
  noplaylist : Bool
deriving DecidableEq

/-- What `download_video` did after inspecting the metadata:
`downloaded ts` records a call `ydl.download(ts)`; `outOfRangeError i`
records the critical "Index i is out of range!" dialog followed by
`return` with no download; `indexPanic` would record an out-of-bounds
list access `info["entries"][index - 1]`. -/
inductive DownloadOutcome where
  | downloaded (targets : List String)
  | outOfRangeError (index : Int)
  | indexPanic
deriving DecidableEq

/-- The observable result of a run of `download_video` that did not raise:
whether the invalid-quality warning dialog was shown, the quality actually
used, the options handed to the retrieval engine, and the outcome. -/
structure DVResult where
  warned : Bool
  quality : String
  opts : YdlOpts
  outcome : DownloadOutcome
deriving DecidableEq

/-- Line 88: `quality_options = ["2160", "1440", "1080", "720", "480"]`. -/
def quality_options : List String := ["2160", "1440", "1080", "720", "480"]

/-- Lines 90-92 (`selectQuality` in the spec): keep a quality that is in
`quality_options`; otherwise show the warning and fall back to
`quality_options[0]`.  Returns (warning shown, quality used). -/
def select_quality (preferred_quality : String) : Bool × String :=
  if preferred_quality ∈ quality_options then (false, preferred_quality)
  else (true, quality_options.get ⟨0, by decide⟩)

/-- Line 95 (`buildFormatExpression` in the spec): the `format` value of
`ydl_opts`. -/
def build_format (q : String) : String :=
  "bestvideo[height<=" ++ q ++ "][ext=mp4]+bestaudio[ext=m4a]/best[ext=mp4]"

/-- Lines 94-101: the `ydl_opts` dictionary (the progress hook, an IO
callback, is not represented). -/
def build_ydl_opts (q save_path : String) : YdlOpts :=
  ⟨build_format q, save_path ++ "/%(title)s.%(ext)s", "mp4", "mp4", true⟩

/-- Lines 106-117 (`planTarget` in the spec): the branch on the inspected
metadata.  When `"entries" in info` and an index was extracted, the index
is checked against `1 <= index <= len(info["entries"])`; in range, the
entry at the 1-based position is downloaded alone; out of range, the
error dialog is shown and nothing is downloaded.  Otherwise the whole URL
is downloaded as a single video. -/
def plan_target (video_url : String) (info : VideoInfo) (index : Option Int) :
    DownloadOutcome :=
  match info.entries, index with
  | some entries, some i =>
    if 1 ≤ i ∧ i ≤ (entries.length : Int) then
      match entries.get? (i - 1).toNat with
      | some entry => DownloadOutcome.downloaded [entry.url]
      | none => DownloadOutcome.indexPanic
    else DownloadOutcome.outOfRangeError i
  | _, _ => DownloadOutcome.downloaded [video_url]

/-- Embedding of `download_video` (src/youtube_downloader.py, lines
85-121).  The metadata `info` that `ydl.extract_info` would return is an
argument (the retrieval engine is an external collaborator), and
`Except.error ()` propagates the `ValueError` that
`extract_index_from_url` can raise on line 87. -/
def download_video (video_url preferred_quality save_path : String)
    (info : VideoInfo) : Except Unit DVResult :=
  match extract_index_from_url video_url with
  | Except.error e => Except.error e
  | Except.ok index =>
    let wq := select_quality preferred_quality
    Except.ok ⟨wq.1, wq.2, build_ydl_opts wq.2 save_path,
      plan_target video_url info index⟩

/-- Grammar of the format-selection language of the retrieval engine, as far as
the spec describes it: `alt` is the `/` fallback between alternatives,
`merge` is the `+` combination of a video and an audio selector, and
`sel b fs` is a base selector `b` constrained by the bracketed filters
`fs`. -/
inductive FormatExpr where
  | alt (a b : FormatExpr)
  | merge (a b : FormatExpr)
  | sel (base : String) (filters : List String)

/-- Render a format expression to the concrete string syntax. -/
def FormatExpr.render : FormatExpr → String
  | FormatExpr.alt a b => a.render ++ "/" ++ b.render
  | FormatExpr.merge a b => a.render ++ "+" ++ b.render
  | FormatExpr.sel base fs => base ++ String.join (fs.map fun f => "[" ++ f ++ "]")

/-- Modelled from the spec: "best available video track at or below
the vertical resolution of `tier`, muxed with the best compatible audio track,
falling back to the best combined stream if no matching split streams
exist", constrained to the mp4/m4a container family. -/
def format_expression_spec (tier : String) : FormatExpr :=
  FormatExpr.alt
    (FormatExpr.merge
      (FormatExpr.sel "bestvideo" ["height<=" ++ tier, "ext=mp4"])
      (FormatExpr.sel "bestaudio" ["ext=m4a"]))
    (FormatExpr.sel "best" ["ext=mp4"])

/-- A five-entry playlist used as concrete metadata in witnesses. -/
def sampleEntries : List Entry :=
  [⟨"t1", "i1", "u1"⟩, ⟨"t2", "i2", "u2"⟩, ⟨"t3", "i3", "u3"⟩,
   ⟨"t4", "i4", "u4"⟩, ⟨"t5", "i5", "u5"⟩]

/-- Metadata of a URL that references a five-item collection. -/
def samplePlaylistInfo : VideoInfo := ⟨some sampleEntries⟩

/-- Metadata of a URL whose inspection yields no `entries` key. -/
def sampleNoEntriesInfo : VideoInfo := ⟨none⟩

/-- The result of downloading `https://youtu.be/abc123` with the invalid
quality `"9999"`. -/
def sampleResult9999 : DVResult :=
  ⟨true, "2160", build_ydl_opts "2160" ".",
   DownloadOutcome.downloaded ["https://youtu.be/abc123"]⟩

/-- The result of downloading index 3 of the five-entry playlist. -/
def sampleResult3 : DVResult :=
  ⟨false, "1080", build_ydl_opts "1080" ".", DownloadOutcome.downloaded ["u3"]⟩

/-- The result of requesting index 50 of the five-entry playlist. -/
def sampleResult50 : DVResult :=
  ⟨false, "1080", build_ydl_opts "1080" ".", DownloadOutcome.outOfRangeError 50⟩

/-- The result of downloading a playlist URL that carries no index. -/
def sampleResultNoIndex : DVResult :=
  ⟨false, "720", build_ydl_opts "720" ".",
   DownloadOutcome.downloaded ["https://youtube.com/playlist?list=xyz"]⟩

/-- The result of downloading a URL whose query has an index but whose
metadata has no entries. -/
def sampleResultIgnored : DVResult :=
  ⟨false, "480", build_ydl_opts "480" ".",
   DownloadOutcome.downloaded ["https://youtube.com/watch?v=abc&index=7"]⟩

/-! ## Helper lemmas -/

theorem digit_not_pyspace {c : Char} (h : c.isDigit = true) :
    isPyIntSpace c = false := by
  simp only [Char.isDigit, Bool.and_eq_true, decide_eq_true_eq] at h
  simp only [isPyIntSpace, Bool.or_eq_false_iff, decide_eq_false_iff_not]
  obtain ⟨h1, h2⟩ := h
  refine ⟨⟨⟨⟨⟨fun hc => ?_, fun hc => ?_⟩, fun hc => ?_⟩, fun hc => ?_⟩,
    fun hc => ?_⟩, fun hc => ?_⟩ <;>
    · subst hc; revert h1 h2; decide

theorem digit_ne_plus {c : Char} (h : c.isDigit = true) : c ≠ '+' := by
  intro hc; subst hc; revert h; decide

theorem digit_ne_minus {c : Char} (h : c.isDigit = true) : c ≠ '-' := by
  intro hc; subst hc; revert h; decide

theorem dropWhile_ws_digits {v : List Char} (h : v.all Char.isDigit = true) :
    v.dropWhile isPyIntSpace = v := by
  cases v with
  | nil => rfl
  | cons c cs =>
    simp only [List.all_cons, Bool.and_eq_true] at h
    rw [List.dropWhile_cons, digit_not_pyspace h.1]
    simp

theorem stripWs_digits {v : List Char} (h : v.all Char.isDigit = true) :
    stripWs v = v := by
  unfold stripWs
  rw [dropWhile_ws_digits h, dropWhile_ws_digits (by simpa using h),
    List.reverse_reverse]

theorem parseDigitsRest_digits : ∀ (cs : List Char) (acc : Nat),
    cs.all Char.isDigit = true →
    parseDigitsRest acc cs = some (cs.foldl (fun a c => 10 * a + digitVal c) acc) := by
  intro cs
  induction cs with
  | nil => intro acc _; rfl
  | cons c cs ih =>
    intro acc h
    simp only [List.all_cons, Bool.and_eq_true] at h
    rw [parseDigitsRest.eq_def]
    simp only [if_pos h.1, ih _ h.2]
    rfl

/-- Python `int` on a non-empty all-digit string of at most 4300 digits
returns its decimal value. -/
theorem py_int_digits {v : List Char} (hne : v ≠ []) (h : v.all Char.isDigit = true)
    (hlen : v.length ≤ 4300) :
    py_int v = some (Int.ofNat (natVal v)) := by
  obtain ⟨c, cs, rfl⟩ := List.exists_cons_of_ne_nil hne
  have hall := h
  have hcount : countDigits (c :: cs) ≤ 4300 :=
    le_trans (List.length_filter_le _ _) hlen
  simp only [List.all_cons, Bool.and_eq_true] at h
  rw [py_int.eq_def, stripWs_digits hall]
  simp only [if_neg (digit_ne_plus h.1), if_neg (digit_ne_minus h.1)]
  rw [parseUnsignedLimited, if_neg (by omega : ¬ countDigits (c :: cs) > 4300)]
  rw [parseUnsigned.eq_def]
  simp only [if_pos h.1, parseDigitsRest_digits _ _ h.2]
  simp [natVal, digitVal]

/-- A 1-based index satisfying the range guard of the source is in bounds for
0-based access after the `index - 1` adjustment. -/
theorem index_toNat_lt {i : Int} {n : Nat} (h1 : 1 ≤ i) (h2 : i ≤ (n : Int)) :
    (i - 1).toNat < n := by omega

theorem build_format_render (t : String) :
    build_format t = (format_expression_spec t).render := by
  apply String.ext
  simp only [build_format, format_expression_spec, FormatExpr.render, String.join,
    List.map, List.foldl, String.data_append]
  simp only [List.append_assoc]
  rfl

theorem plan_target_index_none (u : String) (info : VideoInfo) :
    plan_target u info none = DownloadOutcome.downloaded [u] := by
  cases h : info.entries <;> simp [plan_target, h]

theorem plan_target_no_entries (u : String) {info : VideoInfo}
    (hent : info.entries = none) (idx : Option Int) :
    plan_target u info idx = DownloadOutcome.downloaded [u] := by
  cases idx <;> simp [plan_target, hent]

theorem plan_target_in_range {es : List Entry} {i : Int} (u : String)
    {info : VideoInfo} (hent : info.entries = some es)
    (h1 : 1 ≤ i) (h2 : i ≤ (es.length : Int)) :
    plan_target u info (some i) =
      DownloadOutcome.downloaded
        [(es.get ⟨(i - 1).toNat, index_toNat_lt h1 h2⟩).url] := by
  simp only [plan_target, hent]
  rw [if_pos ⟨h1, h2⟩, List.get?_eq_get (index_toNat_lt h1 h2)]

theorem plan_target_oob {es : List Entry} {i : Int} (u : String)
    {info : VideoInfo} (hent : info.entries = some es)
    (hbad : ¬(1 ≤ i ∧ i ≤ (es.length : Int))) :
    plan_target u info (some i) = DownloadOutcome.outOfRangeError i := by
  simp only [plan_target, hent]
  rw [if_neg hbad]

theorem plan_target_ne_panic (u : String) (info : VideoInfo) (idx : Option Int) :
    plan_target u info idx ≠ DownloadOutcome.indexPanic := by
  cases hE : info.entries with
  | none => rw [plan_target_no_entries u hE idx]; simp
  | some es =>
    cases idx with
    | none => rw [plan_target_index_none]; simp
    | some i =>
      by_cases h : 1 ≤ i ∧ i ≤ (es.length : Int)
      · rw [plan_target_in_range u hE h.1 h.2]; simp
      · rw [plan_target_oob u hE h]; simp

/-- Inversion for a successful `download_video` run: the extracted index
did not raise, and the result is what the quality check, the option
dictionary and the planning branch produced. -/
theorem download_video_ok_elim {u q sp : String} {info : VideoInfo} {r : DVResult} :
    download_video u q sp info = Except.ok r →
    ∃ idx, extract_index_from_url u = Except.ok idx ∧
      r = ⟨(select_quality q).1, (select_quality q).2,
           build_ydl_opts (select_quality q).2 sp, plan_target u info idx⟩ := by
  intro hok
  unfold download_video at hok
  cases hx : extract_index_from_url u with
  | error e => rw [hx] at hok; simp at hok
  | ok idx =>
    rw [hx] at hok
    simp only [Except.ok.injEq] at hok
    exact ⟨idx, rfl, hok.symm⟩

/-! ## Claim theorems -/

/-- C1 counterexample: the claim says a non-numeric `index` value yields
"no index" without an exception, but the code reaches `int("abc")`, which
raises `ValueError`. -/
theorem extract_index_nonnumeric_raises :
    extract_index_from_url "https://youtube.com/watch?v=a&index=abc" =
      Except.error () := by decide

/-- C1 (amended): a ValueError can also come from `urlparse` itself on a
malformed netloc; for an ASCII URL that `urlparse` accepts, a query with
no `index` parameter yields `None` without raising, while an ASCII first
`index` value that is not a valid integer literal makes `int` raise
`ValueError` instead of yielding "no index". -/
theorem resolveIndex_error_behavior (url : String) (qs : List Char)
    (_hascii : url.data.all (fun c => c.toNat ≤ 127) = true)
    (hq : urlparse_query url.data = Except.ok qs) :
    (parse_qs_get qs indexKey = [] →
      extract_index_from_url url = Except.ok none) ∧
    (∀ (v : List Char) (vs : List (List Char)),
      parse_qs_get qs indexKey = v :: vs →
      v.all (fun c => c.toNat ≤ 127) = true →
      py_int v = none → extract_index_from_url url = Except.error ()) := by
  constructor
  · intro h
    simp only [extract_index_from_url, hq, h]
  · intro v vs h _ hv
    simp only [extract_index_from_url, hq, h, hv]

/-- C1 witness: a URL without an index parameter yields `None`; a URL with
a non-numeric index raises. -/
theorem resolveIndex_error_behavior_witness :
    extract_index_from_url "https://x/nolist" = Except.ok none ∧
    extract_index_from_url "https://a/?index=12a" = Except.error () :=
  ⟨(resolveIndex_error_behavior "https://x/nolist" [] (by decide) (by decide)).1
     (by decide),
   (resolveIndex_error_behavior "https://a/?index=12a" "index=12a".data (by decide)
     (by decide)).2 "12a".data [] (by decide) (by decide) (by decide)⟩

/-- C2: a quality in the closed enumeration is kept unchanged with no
warning; any other string triggers the warning and the fallback to
`"2160"`; either way the quality used downstream is in the enumeration. -/
theorem selectQuality_closed_enum (u q sp : String) (info : VideoInfo)
    (r : DVResult) (hok : download_video u q sp info = Except.ok r) :
    ((q ∈ quality_options ∧ r.quality = q ∧ r.warned = false) ∨
     (q ∉ quality_options ∧ r.quality = "2160" ∧ r.warned = true)) ∧
    r.quality ∈ quality_options := by
  obtain ⟨idx, hx, rfl⟩ := download_video_ok_elim hok
  by_cases hq : q ∈ quality_options
  · exact ⟨Or.inl ⟨hq, by simp [select_quality, hq], by simp [select_quality, hq]⟩,
      by simp only [select_quality, if_pos hq]; exact hq⟩
  · have hsel : select_quality q = (true, quality_options.get ⟨0, by decide⟩) := by
      simp only [select_quality, if_neg hq]
    refine ⟨Or.inr ⟨hq, ?_, ?_⟩, ?_⟩
    · show (select_quality q).2 = "2160"
      rw [hsel]
      rfl
    · show (select_quality q).1 = true
      rw [hsel]
    · show (select_quality q).2 ∈ quality_options
      rw [hsel]
      decide

/-- C2 witness: the invalid quality `"9999"` produces the warning and the
fallback `"2160"`. -/
theorem selectQuality_closed_enum_witness :
    ((("9999" : String) ∈ quality_options ∧ sampleResult9999.quality = "9999" ∧
        sampleResult9999.warned = false) ∨
     (("9999" : String) ∉ quality_options ∧ sampleResult9999.quality = "2160" ∧
        sampleResult9999.warned = true)) ∧
    sampleResult9999.quality ∈ quality_options :=
  selectQuality_closed_enum "https://youtu.be/abc123" "9999" "." sampleNoEntriesInfo
    sampleResult9999 (by decide)

/-- C3: with a collection of entries and an in-range 1-based resolved
index, the playlist branch downloads exactly the URL of the entry at that
position and nothing else. -/
theorem planTarget_selects_indexed_item (u q sp : String) (info : VideoInfo)
    (r : DVResult) (es : List Entry) (i : Int)
    (hok : download_video u q sp info = Except.ok r)
    (hent : info.entries = some es)
    (hidx : extract_index_from_url u = Except.ok (some i))
    (h1 : 1 ≤ i) (h2 : i ≤ (es.length : Int)) :
    r.outcome = DownloadOutcome.downloaded
      [(es.get ⟨(i - 1).toNat, index_toNat_lt h1 h2⟩).url] := by
  obtain ⟨idx, hx, rfl⟩ := download_video_ok_elim hok
  rw [hx] at hidx
  injection hidx with hidx
  subst hidx
  exact plan_target_in_range u hent h1 h2

/-- C3 witness: index 3 of the five-entry playlist downloads only `u3`,
the URL at 1-based position 3. -/
theorem planTarget_selects_indexed_item_witness :
    sampleResult3.outcome = DownloadOutcome.downloaded
      [(sampleEntries.get ⟨((3 : Int) - 1).toNat,
          index_toNat_lt (by decide) (by decide)⟩).url] :=
  planTarget_selects_indexed_item "https://youtube.com/playlist?list=xyz&index=3"
    "1080" "." samplePlaylistInfo sampleResult3 sampleEntries 3 (by decide)
    (by decide) (by decide) (by decide) (by decide)

/-- C4: a resolved index outside `1..len(entries)` produces the
out-of-range error and no download is attempted. -/
theorem planTarget_out_of_range_no_download (u q sp : String) (info : VideoInfo)
    (r : DVResult) (es : List Entry) (i : Int)
    (hok : download_video u q sp info = Except.ok r)
    (hent : info.entries = some es)
    (hidx : extract_index_from_url u = Except.ok (some i))
    (hbad : ¬(1 ≤ i ∧ i ≤ (es.length : Int))) :
    r.outcome = DownloadOutcome.outOfRangeError i ∧
    ∀ ts, r.outcome ≠ DownloadOutcome.downloaded ts := by
  obtain ⟨idx, hx, rfl⟩ := download_video_ok_elim hok
  rw [hx] at hidx
  injection hidx with hidx
  subst hidx
  have h := plan_target_oob u hent hbad
  exact ⟨h, by intro ts hc; rw [h] at hc; cases hc⟩

/-- C4 witness: index 50 of the five-entry playlist is rejected with the
out-of-range error and nothing is downloaded. -/
theorem planTarget_out_of_range_no_download_witness :
    sampleResult50.outcome = DownloadOutcome.outOfRangeError 50 ∧
    ∀ ts, sampleResult50.outcome ≠ DownloadOutcome.downloaded ts :=
  planTarget_out_of_range_no_download "https://youtube.com/playlist?list=xyz&index=50"
    "1080" "." samplePlaylistInfo sampleResult50 sampleEntries 50 (by decide)
    (by decide) (by decide) (by decide)

/-- C5: when no index was resolved from the URL, the whole URL is
downloaded directly as a single item — even if the metadata reports a
collection — and the options force single-item mode (`noplaylist`). -/
theorem absent_index_single_item_mode (u q sp : String) (info : VideoInfo)
    (r : DVResult) (hok : download_video u q sp info = Except.ok r)
    (hidx : extract_index_from_url u = Except.ok none) :
    r.outcome = DownloadOutcome.downloaded [u] ∧ r.opts.noplaylist = true := by
  obtain ⟨idx, hx, rfl⟩ := download_video_ok_elim hok
  rw [hx] at hidx
  injection hidx with hidx
  subst hidx
  exact ⟨plan_target_index_none u info, rfl⟩

/-- C5 witness: a playlist URL without an index parameter is downloaded
whole as a single item with `noplaylist` set, despite the five-entry
collection metadata. -/
theorem absent_index_single_item_mode_witness :
    sampleResultNoIndex.outcome =
      DownloadOutcome.downloaded ["https://youtube.com/playlist?list=xyz"] ∧
    sampleResultNoIndex.opts.noplaylist = true :=
  absent_index_single_item_mode "https://youtube.com/playlist?list=xyz" "720" "."
    samplePlaylistInfo sampleResultNoIndex (by decide) (by decide)

/-- C6 counterexample: the claim says a URL whose query contains a
positive `index=N` resolves to N, but on this URL — whose query would
contain `index=2` — `urlparse` raises "Invalid IPv6 URL" for the
unmatched bracket before the query is ever read. -/
theorem extract_index_invalid_ipv6_raises :
    extract_index_from_url "http://[a?index=2" = Except.error () := by decide

/-- C6 (amended): for an ASCII URL that `urlparse` parses successfully
(it raises ValueError on malformed bracket netlocs), a first `index`
value that is the decimal numeral of a positive integer N resolves to N,
and a query without an `index` parameter resolves to `None`. -/
theorem resolveIndex_returns_index (url : String) (qs : List Char)
    (_hascii : url.data.all (fun c => c.toNat ≤ 127) = true)
    (hq : urlparse_query url.data = Except.ok qs) :
    (parse_qs_get qs indexKey = [] →
      extract_index_from_url url = Except.ok none) ∧
    (∀ (v : List Char) (vs : List (List Char)) (N : Nat),
      parse_qs_get qs indexKey = v :: vs →
      v ≠ [] → v.all Char.isDigit = true → v.length ≤ 4300 →
      natVal v = N → 0 < N →
      extract_index_from_url url = Except.ok (some (N : Int))) := by
  constructor
  · intro h
    simp only [extract_index_from_url, hq, h]
  · intro v vs N h hne hdig hlen hval _
    simp only [extract_index_from_url, hq, h, py_int_digits hne hdig hlen, hval]
    rfl

/-- C6 witness: `index=2` resolves to 2, and a URL without an index
parameter resolves to `None`. -/
theorem resolveIndex_returns_index_witness :
    extract_index_from_url "https://youtube.com/playlist?list=xyz&index=2" =
      Except.ok (some 2) ∧
    extract_index_from_url "https://youtu.be/xyz" = Except.ok none :=
  ⟨(resolveIndex_returns_index "https://youtube.com/playlist?list=xyz&index=2"
      "list=xyz&index=2".data (by decide) (by decide)).2
      "2".data [] 2 (by decide) (by decide) (by decide) (by decide) (by decide)
      (by decide),
   (resolveIndex_returns_index "https://youtu.be/xyz" [] (by decide) (by decide)).1
     (by decide)⟩

/-- C7: the format value handed to the retrieval engine renders the
expression the spec describes — best mp4 video capped at the used tier merged with
best m4a audio, with a fallback to the best combined mp4 stream — and the
options instruct remuxing/converting the result to mp4. -/
theorem format_expression_meaning (u q sp : String) (info : VideoInfo)
    (r : DVResult) (hok : download_video u q sp info = Except.ok r) :
    r.opts.format = (format_expression_spec r.quality).render ∧
    r.opts.postprocessor_format = "mp4" ∧
    r.opts.merge_output_format = "mp4" := by
  obtain ⟨idx, hx, rfl⟩ := download_video_ok_elim hok
  exact ⟨build_format_render _, rfl, rfl⟩

/-- C7 witness: the format expression of a concrete run renders the spec
expression at tier `"2160"`. -/
theorem format_expression_meaning_witness :
    sampleResult9999.opts.format =
      (format_expression_spec sampleResult9999.quality).render ∧
    sampleResult9999.opts.postprocessor_format = "mp4" ∧
    sampleResult9999.opts.merge_output_format = "mp4" :=
  format_expression_meaning "https://youtu.be/abc123" "9999" "." sampleNoEntriesInfo
    sampleResult9999 (by decide)

/-- C8: the guarded list access `entries[index - 1]` is in bounds whenever
it is performed: no run of `download_video` reaches an out-of-bounds
access. -/
theorem index_access_in_bounds (u q sp : String) (info : VideoInfo)
    (r : DVResult) (hok : download_video u q sp info = Except.ok r) :
    r.outcome ≠ DownloadOutcome.indexPanic := by
  obtain ⟨idx, hx, rfl⟩ := download_video_ok_elim hok
  exact plan_target_ne_panic u info idx

/-- C8 witness: the concrete in-range playlist run performs no
out-of-bounds access. -/
theorem index_access_in_bounds_witness :
    sampleResult3.outcome ≠ DownloadOutcome.indexPanic :=
  index_access_in_bounds "https://youtube.com/playlist?list=xyz&index=3" "1080" "."
    samplePlaylistInfo sampleResult3 (by decide)

/-- C9: when the URL carries an index but the inspected metadata has no
collection entries, the index is silently ignored: the whole URL is
downloaded as a single item and no out-of-range error is signalled. -/
theorem index_ignored_without_entries (u q sp : String) (info : VideoInfo)
    (r : DVResult) (i : Int) (hok : download_video u q sp info = Except.ok r)
    (hidx : extract_index_from_url u = Except.ok (some i))
    (hent : info.entries = none) :
    r.outcome = DownloadOutcome.downloaded [u] ∧
    ∀ j, r.outcome ≠ DownloadOutcome.outOfRangeError j := by
  obtain ⟨idx, hx, rfl⟩ := download_video_ok_elim hok
  rw [hx] at hidx
  injection hidx with hidx
  subst hidx
  have h := plan_target_no_entries u hent (some i)
  exact ⟨h, by intro j hc; rw [h] at hc; cases hc⟩

/-- C9 witness: `index=7` on a URL whose metadata is a single item is
ignored and the whole URL is downloaded. -/
theorem index_ignored_without_entries_witness :
    sampleResultIgnored.outcome =
      DownloadOutcome.downloaded ["https://youtube.com/watch?v=abc&index=7"] ∧
    ∀ j, sampleResultIgnored.outcome ≠ DownloadOutcome.outOfRangeError j :=
  index_ignored_without_entries "https://youtube.com/watch?v=abc&index=7" "480" "."
    sampleNoEntriesInfo sampleResultIgnored 7 (by decide) (by decide) (by decide)

/-- C10 counterexample: the claim says an `index=0` URL resolves to the
non-positive integer 0, but on this URL `urlparse` raises "Invalid IPv6
URL" for the unmatched bracket before the query is parsed. -/
theorem extract_index_raises_before_query :
    extract_index_from_url "http://[a?index=0" = Except.error () := by decide

/-- C10 (amended): for an ASCII URL that `urlparse` parses successfully,
`extract_index_from_url` returns the integer parse of the first `index`
value with no positivity check: any integer the first occurrence parses
to — zero or negative included — is returned as the index. -/
theorem extract_index_first_value_any_int (url : String) (qs : List Char)
    (v : List Char) (vs : List (List Char)) (n : Int)
    (_hascii : url.data.all (fun c => c.toNat ≤ 127) = true)
    (hq : urlparse_query url.data = Except.ok qs)
    (h : parse_qs_get qs indexKey = v :: vs)
    (hv : py_int v = some n) :
    extract_index_from_url url = Except.ok (some n) := by
  simp only [extract_index_from_url, hq, h, hv]

/-- C10 witness: `index=0` resolves to 0, and with `index=-3&index=5` the
first occurrence wins, resolving to -3. -/
theorem extract_index_first_value_any_int_witness :
    extract_index_from_url "https://x/?index=0" = Except.ok (some 0) ∧
    extract_index_from_url "https://x/?index=-3&index=5" = Except.ok (some (-3)) :=
  ⟨extract_index_first_value_any_int "https://x/?index=0" "index=0".data
      "0".data [] 0 (by decide) (by decide) (by decide) (by decide),
   extract_index_first_value_any_int "https://x/?index=-3&index=5"
      "index=-3&index=5".data "-3".data ["5".data] (-3) (by decide) (by decide)
      (by decide) (by decide)⟩
